import Mathlib

/-
Verification of the message-composition module (slack_objects.py):
a deep embedding of the object model (class tags plus ordered attribute
dictionaries holding dynamic values), with the generic equality method,
the generic serializer, and each validated constructor translated from
the source.  Python exceptions raised during construction are modelled
as the error branch of an Except value.
-/

namespace SlackObjects

/-- Concrete classes of the module (the classes that are instantiated).
Abstract bases (_Slack_Object, _BlockElement, _InteractiveElement,
_SelectMenuBase, _LayoutBlock) are represented as predicates on tags. -/
inductive PyClass where
  | text
  | option
  | confirmationDialog
  | optionGroup
  | imageElement
  | button
  | selectMenuStatic
  | selectMenuExternal
  | selectMenuUsers
  | selectMenuConversations
  | selectMenuChannels
  | datePicker
  | sectionBlock
  | dividerBlock
  | imageBlock
  | actionsBlock
  | contextBlock
  | fileBlock
  | blocks
  | message
  | responseMessage
deriving DecidableEq, Repr

mutual
/-- Dynamic Python values as stored in instance attributes. -/
inductive Val where
  | vnone : Val
  | vstr (s : String) : Val
  | vbool (b : Bool) : Val
  | vobj (cls : PyClass) (fields : Fields) : Val
  | vlist (elems : Vals) : Val

/-- A Python list of values. -/
inductive Vals where
  | nil : Vals
  | cons (head : Val) (tail : Vals) : Vals

/-- An instance attribute dictionary: ordered (name, value) pairs,
in insertion order, as Python dicts preserve it. -/
inductive Fields where
  | nil : Fields
  | cons (name : String) (val : Val) (tail : Fields) : Fields
end

deriving instance DecidableEq for Val
deriving instance DecidableEq for Vals
deriving instance DecidableEq for Fields

def Vals.ofList : List Val → Vals
  | [] => .nil
  | v :: vs => .cons v (Vals.ofList vs)

def Vals.toList : Vals → List Val
  | .nil => []
  | .cons v vs => v :: Vals.toList vs

def Vals.length : Vals → Nat
  | .nil => 0
  | .cons _ vs => 1 + Vals.length vs

def Vals.push : Vals → Val → Vals
  | .nil, e => .cons e .nil
  | .cons v vs, e => .cons v (Vals.push vs e)

def Fields.ofList : List (String × Val) → Fields
  | [] => .nil
  | (n, v) :: fs => .cons n v (Fields.ofList fs)

def Fields.toL : Fields → List (String × Val)
  | .nil => []
  | .cons n v fs => (n, v) :: Fields.toL fs

/-- Attribute read (objects built by the constructors below always
have the attributes that are read, so the default is never hit). -/
def Fields.get : Fields → String → Val
  | .nil, _ => .vnone
  | .cons n v fs, k => if n == k then v else Fields.get fs k

/-- Attribute assignment to an existing attribute (the only kind of
assignment performed after __init__ in the source is to _elements). -/
def Fields.set : Fields → String → Val → Fields
  | .nil, _, _ => .nil
  | .cons n v fs, k, w => if n == k then .cons n w fs else .cons n v (Fields.set fs k w)

def Val.isNone : Val → Bool
  | .vnone => true
  | _ => false

/-- Read an attribute of an object value. -/
def Val.getField : Val → String → Val
  | .vobj _ f, k => f.get k
  | _, _ => .vnone

/-- Models Python isinstance(other, type(self)) for concrete classes:
other_cls must be cls_self or a subclass of it.  The only proper
subclass relation between instantiated classes in the source is
ResponseMessage < Message. -/
def isinstanceConc (other_cls cls_self : PyClass) : Bool :=
  other_cls == cls_self
    || (other_cls == .responseMessage && cls_self == .message)

mutual
/-- Models the Python expression x == y for the values appearing in
this module.  For objects this is _Slack_Object.__eq__ (source lines
51-58): isinstance(other, type(self)), then all pairwise comparisons
of the two attribute dictionaries zipped in insertion order (zip stops
at the shorter dictionary).  Mixed kinds compare unequal, as in Python
(a failed reflected comparison yields False). -/
def pyEq : Val → Val → Bool
  | .vnone, .vnone => true
  | .vstr s, .vstr t => s == t
  | .vbool a, .vbool b => a == b
  | .vobj c f, .vobj c2 f2 => isinstanceConc c2 c && fieldsZipEq f f2
  | .vlist xs, .vlist ys => valsEq xs ys
  | _, _ => false

/-- all(self.__dict__[key1] == other.__dict__[key2] for key1, key2 in
zip(...)): pairwise comparison that stops at the shorter dictionary. -/
def fieldsZipEq : Fields → Fields → Bool
  | .nil, _ => true
  | .cons _ _ _, .nil => true
  | .cons _ v t, .cons _ v2 t2 => pyEq v v2 && fieldsZipEq t t2

/-- Python list equality: same length and pairwise ==. -/
def valsEq : Vals → Vals → Bool
  | .nil, .nil => true
  | .cons v t, .cons v2 t2 => pyEq v v2 && valsEq t t2
  | _, _ => false
end

/-
Serialization: _Slack_Object.get_array (source lines 24-46) walks the
attribute dictionary, skips None values, strips the leading underscore
from attribute names, recurses into objects, and maps over lists
(objects in a list are serialized, other elements pass through
verbatim).  Blocks.get_array (source lines 794-798) overrides this to
emit the list of serialized layout blocks instead of a mapping.
-/

mutual
/-- The emitted document values. -/
inductive JVal where
  | jnull : JVal
  | jstr (s : String) : JVal
  | jbool (b : Bool) : JVal
  | jarr (elems : JVals) : JVal
  | jobj (fields : JFields) : JVal

inductive JVals where
  | nil : JVals
  | cons (head : JVal) (tail : JVals) : JVals

inductive JFields where
  | nil : JFields
  | cons (key : String) (val : JVal) (tail : JFields) : JFields
end

deriving instance DecidableEq for JVal
deriving instance DecidableEq for JVals
deriving instance DecidableEq for JFields

mutual
/-- Serialization of a single value as it happens inside get_array:
None stays None (it becomes null only when it sits inside a list,
since attribute positions holding None are skipped before this point),
objects dispatch to their get_array, list elements are serialized
elementwise. -/
def serializeVal : Val → JVal
  | .vnone => .jnull
  | .vstr s => .jstr s
  | .vbool b => .jbool b
  | .vlist xs => .jarr (serializeList xs)
  | .vobj c f =>
      if c == .blocks then blocksGetArray f else .jobj (getArrayFields f)

/-- Elementwise serialization of a list value: an element that is a
_Slack_Object gets get_array applied, anything else passes through. -/
def serializeList : Vals → JVals
  | .nil => .nil
  | .cons v t => .cons (serializeVal v) (serializeList t)

/-- The body of _Slack_Object.get_array: skip attributes holding None,
emit the attribute name without its leading underscore, serialize the
value. -/
def getArrayFields : Fields → JFields
  | .nil => .nil
  | .cons k v t =>
      match v with
      | .vnone => getArrayFields t
      | v => .cons (k.drop 1) (serializeVal v) (getArrayFields t)

/-- Blocks.get_array: the instance has the single attribute _blocks,
always a list (Blocks.__init__ guarantees it); the override returns
the list of the serialized layout blocks.  The fallback arm is
unreachable from the constructors. -/
def blocksGetArray : Fields → JVal
  | .cons _ (.vlist xs) _ => .jarr (serializeList xs)
  | _ => .jarr .nil
end

/-- Entry point corresponding to the get_array method call on a node. -/
def Val.get_array (v : Val) : JVal := serializeVal v

def jfKeys : JFields → List String
  | .nil => []
  | .cons k _ t => k :: jfKeys t

/-- The keys of an emitted mapping (empty for non-mappings). -/
def jKeys : JVal → List String
  | .jobj fs => jfKeys fs
  | _ => []

def jfLookup : JFields → String → Option JVal
  | .nil, _ => none
  | .cons k v t, key => if k == key then some v else jfLookup t key

/-- First-match key lookup in an emitted mapping. -/
def jLookup : JVal → String → Option JVal
  | .jobj fs, key => jfLookup fs key
  | _, _ => none

/-
Constructors.  Each Python __init__ is translated as a function
returning Except String Val: a raised exception (ValueError,
TypeError, RuntimeError - the distinction is not tracked) becomes
.error, a completed construction becomes .ok with the instance the
constructor leaves behind, its attribute dictionary in assignment
order.  Arguments whose Python-level type is fixed by the signature
and by str() coercions are given that type directly; arguments that
the source type-checks dynamically are passed as Val / lists of Val
and checked as the source does.
-/

def optS : Option String → Val
  | none => .vnone
  | some s => .vstr s

def optB : Option Bool → Val
  | none => .vnone
  | some b => .vbool b

def optV : Option Val → Val
  | none => .vnone
  | some v => v

def optList : Option (List Val) → Val
  | none => .vnone
  | some xs => .vlist (Vals.ofList xs)

/-- Extract the instance from a completed construction (used only on
constructions that are proved or checked to succeed). -/
def getOk : Except String Val → Val
  | .ok v => v
  | .error _ => .vnone

/-- Did the construction complete (no exception raised)? -/
def isOk : Except String Val → Bool
  | .ok _ => true
  | .error _ => false

/-- Class-membership tests corresponding to isinstance checks against
the classes of the source. -/
def isTextObj : Val → Bool
  | .vobj .text _ => true
  | _ => false

def isOptionObj : Val → Bool
  | .vobj .option _ => true
  | _ => false

def isOptionGroupObj : Val → Bool
  | .vobj .optionGroup _ => true
  | _ => false

def isConfirmationDialogObj : Val → Bool
  | .vobj .confirmationDialog _ => true
  | _ => false

def isImageElementObj : Val → Bool
  | .vobj .imageElement _ => true
  | _ => false

def isBlocksObj : Val → Bool
  | .vobj .blocks _ => true
  | _ => false

/-- isinstance(x, _InteractiveElement): Button, the select menus and
DatePicker extend _InteractiveElement. -/
def isInteractiveElementObj : Val → Bool
  | .vobj c _ =>
      match c with
      | .button | .selectMenuStatic | .selectMenuExternal
      | .selectMenuUsers | .selectMenuConversations
      | .selectMenuChannels | .datePicker => true
      | _ => false
  | _ => false

/-- isinstance(x, _BlockElement): ImageElement plus every interactive
element.  Text is NOT a _BlockElement (it extends _Slack_Object). -/
def isBlockElementObj (v : Val) : Bool :=
  isImageElementObj v || isInteractiveElementObj v

/-- isinstance(x, _LayoutBlock). -/
def isLayoutBlockObj : Val → Bool
  | .vobj c _ =>
      match c with
      | .sectionBlock | .dividerBlock | .imageBlock
      | .actionsBlock | .contextBlock | .fileBlock => true
      | _ => false
  | _ => false

def Text.TYPE_PLAIN_TEXT : String := "plain_text"
def Text.TYPE_MRKDWN : String := "mrkdwn"
def Text.TYPES : List String := [Text.TYPE_PLAIN_TEXT, Text.TYPE_MRKDWN]

/-- Text.__init__ (source lines 74-97).  text arrives already
coerced (the body applies str(text)); emoji and verbatim are bool or
None by the two isinstance checks, so they are typed as Option Bool
here and those checks are vacuous. -/
def Text.init (text : String) (type : Option String := none)
    (emoji : Option Bool := none) (verbatim : Option Bool := none) :
    Except String Val :=
  let type := type.getD Text.TYPE_MRKDWN
  if !(Text.TYPES.contains type) then
    .error "type must be one of plain_text, mrkdwn"
  else if type != Text.TYPE_PLAIN_TEXT && !emoji.isNone then
    .error "emoji can only be used with type plain_text"
  else
    .ok (.vobj .text (Fields.ofList
      [("_type", .vstr type), ("_text", .vstr text),
       ("_emoji", optB emoji), ("_verbatim", optB verbatim)]))

/-- The _type attribute of a Text instance. -/
def textType (t : Val) : String :=
  match t.getField "_type" with
  | .vstr s => s
  | _ => ""

/-- The _text attribute of a Text instance. -/
def textText (t : Val) : String :=
  match t.getField "_text" with
  | .vstr s => s
  | _ => ""

/-- Text.convert_n_validate (source lines 115-137): promote a string
to Text, or accept a Text instance; then check kind and length. -/
def Text.convert_n_validate (text : Val) (name : String)
    (max_length : Option Nat := none) (type : Option String := none) :
    Except String Val :=
  let conv : Except String Val :=
    match text with
    | .vstr s => Text.init s type
    | .vobj .text f => .ok (.vobj .text f)
    | _ => .error (name ++ " must be either string or Text")
  match conv with
  | .error e => .error e
  | .ok t =>
      if type.isSome && textType t != type.getD "" then
        .error (name ++ " must be of the required type")
      else if max_length.isSome && (textText t).length > max_length.getD 0 then
        .error ("Maximum length of " ++ name ++ " exceeded")
      else
        .ok t

/-- Option.__init__ (source lines 141-158).  value arrives as the
str() coercion applies; url is str or None. -/
def Option.init (text : Val) (value : String)
    (url : Option String := none) : Except String Val :=
  match Text.convert_n_validate text "text" (some 75)
      (some Text.TYPE_PLAIN_TEXT) with
  | .error e => .error e
  | .ok textV =>
      if value.length > 75 then
        .error "Maximum length of value is 75 characters"
      else if urlTooLong url 3000 then
        .error "Maximum length of url is 3000 characters"
      else
        .ok (.vobj .option (Fields.ofList
          [("_text", textV), ("_value", .vstr value), ("_url", optS url)]))
where
  urlTooLong : Option String → Nat → Bool
  | none, _ => false
  | some u, m => u.length > m

/-- OptionGroup.__init__ (source lines 216-233).  options is typed as
a list (the isinstance list check is vacuous); element classes are
checked as in the source. -/
def OptionGroup.init (label : Val) (options : List Val) :
    Except String Val :=
  match Text.convert_n_validate label "label" (some 75)
      (some Text.TYPE_PLAIN_TEXT) with
  | .error e => .error e
  | .ok labelV =>
      if options.length > 100 then
        .error "Maximum 100 options"
      else if options.any (fun x => !isOptionObj x) then
        .error "options must be of type Option"
      else
        .ok (.vobj .optionGroup (Fields.ofList
          [("_label", labelV), ("_options", .vlist (Vals.ofList options))]))

/-- ConfirmationDialog.__init__ (source lines 174-208). -/
def ConfirmationDialog.init (title text confirm deny : Val) :
    Except String Val :=
  match Text.convert_n_validate title "title" (some 100)
      (some Text.TYPE_PLAIN_TEXT) with
  | .error e => .error e
  | .ok titleV =>
  match Text.convert_n_validate text "text" (some 300) with
  | .error e => .error e
  | .ok textV =>
  match Text.convert_n_validate confirm "confirm" (some 30)
      (some Text.TYPE_PLAIN_TEXT) with
  | .error e => .error e
  | .ok confirmV =>
  match Text.convert_n_validate deny "deny" (some 30)
      (some Text.TYPE_PLAIN_TEXT) with
  | .error e => .error e
  | .ok denyV =>
      .ok (.vobj .confirmationDialog (Fields.ofList
        [("_title", titleV), ("_text", textV),
         ("_confirm", confirmV), ("_deny", denyV)]))

/-- ImageElement.__init__ (source lines 258-270). -/
def ImageElement.init (image_url alt_text : String) : Except String Val :=
  if image_url.length > 3000 then
    .error "Maximum length of image_url is 3000 characters"
  else if alt_text.length > 2000 then
    .error "Maximum length of alt_text is 2000 characters"
  else
    .ok (.vobj .imageElement (Fields.ofList
      [("_type", .vstr "image"), ("_image_url", .vstr image_url),
       ("_alt_text", .vstr alt_text)]))

/-- _InteractiveElement.__init__ (source lines 282-296): the shared
attribute prefix (_type, _action_id, _confirm) after its checks. -/
def interactiveBase (type action_id : String) (confirm : Option Val) :
    Except String (List (String × Val)) :=
  if action_id.length > 255 then
    .error "Maximum length of action_id is 255 characters"
  else if confirmBad confirm then
    .error "confirm must be of type ConfirmationDialog"
  else
    .ok [("_type", .vstr type), ("_action_id", .vstr action_id),
         ("_confirm", optV confirm)]
where
  confirmBad : Option Val → Bool
  | none => false
  | some c => !isConfirmationDialogObj c

/-- _SelectMenuBase.__init__ (source lines 359-375): the interactive
prefix plus the validated _placeholder attribute.  A placeholder of
None (vnone) is kept as is; anything else goes through
Text.convert_n_validate. -/
def selectMenuBase (type action_id : String) (placeholder : Val)
    (confirm : Option Val) : Except String (List (String × Val)) :=
  match interactiveBase type action_id confirm with
  | .error e => .error e
  | .ok base =>
      match placeholder with
      | .vnone => .ok (base ++ [("_placeholder", Val.vnone)])
      | p =>
          match Text.convert_n_validate p "placeholder" (some 150)
              (some Text.TYPE_PLAIN_TEXT) with
          | .error e => .error e
          | .ok ph => .ok (base ++ [("_placeholder", ph)])

def Button.STYLES_DEF : List String := ["danger", "primary"]

/-- Button.__init__ (source lines 312-340). -/
def Button.init (text : Val) (action_id : String)
    (url : Option String := none) (value : Option String := none)
    (style : Option String := none) (confirm : Option Val := none) :
    Except String Val :=
  match interactiveBase "button" action_id confirm with
  | .error e => .error e
  | .ok base =>
  match Text.convert_n_validate text "text" (some 75)
      (some Text.TYPE_PLAIN_TEXT) with
  | .error e => .error e
  | .ok textV =>
      if optLenGt url 3000 then
        .error "Maximum length of url is 3000 characters"
      else if optLenGt value 2000 then
        .error "Maximum length of value is 2000 characters"
      else if styleBad style then
        .error "invalid style"
      else
        .ok (.vobj .button (Fields.ofList (base ++
          [("_text", textV), ("_url", optS url),
           ("_value", optS value), ("_style", optS style)])))
where
  optLenGt : Option String → Nat → Bool
  | none, _ => false
  | some s, m => s.length > m
  styleBad : Option String → Bool
  | none => false
  | some s => !(Button.STYLES_DEF.contains s)

/-- option_group.options accumulated by the initial_option check in
SelectMenuStatic.__init__ (an OptionGroup always stores a list). -/
def groupOptions : Val → List Val
  | .vobj .optionGroup f =>
      match f.get "_options" with
      | .vlist xs => xs.toList
      | _ => []
  | _ => []

/-- all_options accumulation loop (source lines 436-438). -/
def allGroupOptions (option_groups : List Val) : List Val :=
  option_groups.foldl (fun acc g => acc ++ groupOptions g) []

/-- SelectMenuStatic.__init__ (source lines 386-448).  Faithful to the
source, including its two quirks: the mutual-exclusivity guard at
lines 423-424 builds a ValueError but never raises it, so both
alternatives may be populated; and when options is populated and
contains a match for initial_option, a populated option_groups is
checked as well (the elif at line 435 is reached because the combined
condition at line 429 is false). -/
def SelectMenuStatic.init (placeholder : Val) (action_id : String)
    (options : Option (List Val) := none)
    (option_groups : Option (List Val) := none)
    (initial_option : Option Val := none)
    (confirm : Option Val := none) : Except String Val :=
  match selectMenuBase "static_select" action_id placeholder confirm with
  | .error e => .error e
  | .ok base =>
      match optionsCheck options with
      | .error e => .error e
      | .ok _ =>
      match groupsCheck option_groups with
      | .error e => .error e
      | .ok _ =>
      -- source lines 423-424: ValueError("Only one of options,
      -- option_group can be specified") is constructed and discarded,
      -- not raised: no effect on the result.
      match initialCheck options option_groups initial_option with
      | .error e => .error e
      | .ok _ =>
          .ok (.vobj .selectMenuStatic (Fields.ofList (base ++
            [("_options", optList options),
             ("_option_groups", optList option_groups),
             ("_initial_option", optV initial_option)])))
where
  optionsCheck : Option (List Val) → Except String Unit
  | none => .ok ()
  | some os =>
      if os.length > 100 then
        .error "Maximum number of options is 100"
      else if os.any (fun x => !isOptionObj x) then
        .error "options need to be of type Option"
      else if os.any (fun x => !(x.getField "_url").isNone) then
        .error "url property in option not supported here"
      else .ok ()
  groupsCheck : Option (List Val) → Except String Unit
  | none => .ok ()
  | some gs =>
      if gs.length > 100 then
        .error "Maximum 100 in option_groups"
      else if gs.any (fun x => !isOptionGroupObj x) then
        .error "option_groups need to be of type OptionGroup"
      else .ok ()
  initialCheck : Option (List Val) → Option (List Val) → Option Val →
      Except String Unit
  | _, _, none => .ok ()
  | options, option_groups, some io =>
      if !isOptionObj io then
        .error "initial_option must be of type Option"
      else if options.isSome
          && !((options.getD []).any (fun x => pyEq x io)) then
        .error "initial_option must be identical to an existing option in options"
      else if option_groups.isSome then
        if !((allGroupOptions (option_groups.getD [])).any
            (fun x => pyEq x io)) then
          .error "initial_option must be identical to an existing option in option_groups"
        else .ok ()
      else .ok ()

/-
DatePicker and its date parse.  The source (line 576) calls
datetime.strptime(initial_date, "%Y-%M-%d"): %Y is the year, %M is
the MINUTE directive (not the month %m), %d the day of month.
CPython strptime compiles the format to the regex
  (\d\d\d\d)-([0-5]\d|\d)-(3[01]|[12]\d|0[1-9]|[1-9])
matched at the start of the string; leftover characters raise
ValueError (unconverted data), and the resulting datetime(year, 1,
day, minute=minute) raises ValueError when year is 0 (below MINYEAR).
Digits are modelled as ASCII digits.
-/

def isDig (c : Char) : Bool := c.isDigit

/-- The day field at the end of the string: regex
(3[01]|[12]\d|0[1-9]|[1-9]) followed by end of input.  The two-digit
alternatives are tried first (greedily); a one-digit match followed by
a leftover character fails the unconverted-data check, so with more
than two characters remaining the parse always fails. -/
def dayEnd : List Char → Bool
  | [a] => '1' ≤ a && a ≤ '9'
  | [a, b] =>
      (a == '3' && (b == '0' || b == '1'))
        || ((a == '1' || a == '2') && isDig b)
        || (a == '0' && '1' ≤ b && b ≤ '9')
  | _ => false

/-- The minute field then a literal dash then the day field: regex
([0-5]\d|\d)-... .  When the two-digit alternative matches, the next
character must be the dash (backtracking to the one-digit alternative
cannot help, because the following character is then a digit, not a
dash). -/
def minuteDashDay : List Char → Bool
  | a :: b :: rest =>
      if '0' ≤ a && a ≤ '5' && isDig b then
        match rest with
        | '-' :: rest2 => dayEnd rest2
        | _ => false
      else if isDig a && b == '-' then dayEnd rest
      else false
  | _ => false

/-- Success of datetime.strptime(s, "%Y-%M-%d"): four year digits, a
dash, minute, dash, day, end of string; and a nonzero year (year 0000
passes the regex but datetime rejects it). -/
def strptimeYMd (s : String) : Bool :=
  match s.toList with
  | y1 :: y2 :: y3 :: y4 :: '-' :: rest =>
      isDig y1 && isDig y2 && isDig y3 && isDig y4
        && !(y1 == '0' && y2 == '0' && y3 == '0' && y4 == '0')
        && minuteDashDay rest
  | _ => false

/-- The valid-calendar-date predicate the specification asks for: a
string of the exact shape YYYY-MM-DD whose components form a real
proleptic-Gregorian calendar date (month 01-12, day valid for that
month, leap years included).  This follows the specification text, to
be compared against the behavior of DatePicker.init. -/
def specValidDate (s : String) : Bool :=
  match s.toList with
  | [y1, y2, y3, y4, '-', m1, m2, '-', d1, d2] =>
      if isDig y1 && isDig y2 && isDig y3 && isDig y4
          && isDig m1 && isDig m2 && isDig d1 && isDig d2 then
        let y := ((y1.toNat - 48) * 1000 + (y2.toNat - 48) * 100
          + (y3.toNat - 48) * 10 + (y4.toNat - 48))
        let m := (m1.toNat - 48) * 10 + (m2.toNat - 48)
        let d := (d1.toNat - 48) * 10 + (d2.toNat - 48)
        let leap := (y % 4 == 0 && y % 100 != 0) || y % 400 == 0
        let mlen :=
          if m == 2 then (if leap then 29 else 28)
          else if m == 4 || m == 6 || m == 9 || m == 11 then 30
          else 31
        1 ≤ y && 1 ≤ m && m ≤ 12 && 1 ≤ d && d ≤ mlen
      else false
  | _ => false

/-- DatePicker.__init__ (source lines 557-582). -/
def DatePicker.init (action_id : String) (placeholder : Val := .vnone)
    (initial_date : Option String := none)
    (confirm : Option Val := none) : Except String Val :=
  match selectMenuBase "datepicker" action_id placeholder confirm with
  | .error e => .error e
  | .ok base =>
      match initial_date with
      | none =>
          .ok (.vobj .datePicker (Fields.ofList (base ++
            [("_initial_date", Val.vnone)])))
      | some d =>
          if d.length > 255 then
            .error "Maximum length of initial_date is 255 characters"
          else if !strptimeYMd d then
            .error "initial_date is not a valid date. Expecting YYYY-MM-DD"
          else
            .ok (.vobj .datePicker (Fields.ofList (base ++
              [("_initial_date", .vstr d)])))

/-- _LayoutBlock.__init__ (source lines 594-606): the shared attribute
prefix (_type, _block_id) after the block_id length check. -/
def layoutBase (type : String) (block_id : Option String) :
    Except String (List (String × Val)) :=
  if blockIdTooLong block_id then
    .error "Maximum length of block_id is 255 characters"
  else
    .ok [("_type", .vstr type), ("_block_id", optS block_id)]
where
  blockIdTooLong : Option String → Bool
  | none => false
  | some b => b.length > 255

/-- ActionsBlock.__init__ (source lines 714-727), _MAX_ELEMENTS = 5.
The length check runs before the element-type check, as in the
source. -/
def ActionsBlock.init (elements : List Val)
    (block_id : Option String := none) : Except String Val :=
  match layoutBase "actions" block_id with
  | .error e => .error e
  | .ok base =>
      if elements.length > 5 then
        .error "Can not have more than 5 elements"
      else if elements.any (fun x => !isInteractiveElementObj x) then
        .error "all elements must be of type _InteractiveElement"
      else
        .ok (.vobj .actionsBlock (Fields.ofList (base ++
          [("_elements", .vlist (Vals.ofList elements))])))

/-- ActionsBlock.add (source lines 733-740): type check, then reject
exactly when the element count already equals the cap, else append. -/
def ActionsBlock.add (self element : Val) : Except String Val :=
  if !isBlockElementObj element then
    .error "element must be a _BlockElement"
  else
    match self with
    | .vobj c f =>
        match f.get "_elements" with
        | .vlist xs =>
            if Vals.length xs == 5 then
              .error "Can not have more than 5 elements"
            else
              .ok (.vobj c (f.set "_elements" (.vlist (xs.push element))))
        | _ => .error "attribute _elements is not a list"
    | _ => .error "add called on a non-object"

/-- A sequence of add calls, stopping at the first raised error. -/
def ActionsBlock.addAll (self : Val) : List Val → Except String Val
  | [] => .ok self
  | e :: es =>
      match ActionsBlock.add self e with
      | .error m => .error m
      | .ok s => ActionsBlock.addAll s es

/-- ContextBlock.__init__ (source lines 745-759), _MAX_ELEMENTS = 10.
Elements may be Text or ImageElement; the source reassigns _block_id
at line 759, which leaves the attribute order unchanged. -/
def ContextBlock.init (elements : List Val)
    (block_id : Option String := none) : Except String Val :=
  match layoutBase "context" block_id with
  | .error e => .error e
  | .ok base =>
      if elements.length > 10 then
        .error "Can not have more than 10 elements"
      else if elements.any
          (fun x => !(isTextObj x || isImageElementObj x)) then
        .error "all elements must be of type Text or ImageElement"
      else
        .ok (.vobj .contextBlock (Fields.ofList (base ++
          [("_elements", .vlist (Vals.ofList elements))])))

/-- ContextBlock.add (source lines 761-768): identical to
ActionsBlock.add except for the cap of 10.  In particular the type
check accepts only _BlockElement instances, which excludes Text. -/
def ContextBlock.add (self element : Val) : Except String Val :=
  if !isBlockElementObj element then
    .error "element must be a _BlockElement"
  else
    match self with
    | .vobj c f =>
        match f.get "_elements" with
        | .vlist xs =>
            if Vals.length xs == 10 then
              .error "Can not have more than 10 elements"
            else
              .ok (.vobj c (f.set "_elements" (.vlist (xs.push element))))
        | _ => .error "attribute _elements is not a list"
    | _ => .error "add called on a non-object"

/-- Blocks.__init__ (source lines 786-792). -/
def Blocks.init (layout_blocks : Option (List Val) := none) :
    Except String Val :=
  let lbs := layout_blocks.getD []
  if lbs.any (fun x => !isLayoutBlockObj x) then
    .error "elements of layout_block must be of type _LayoutBlock"
  else
    .ok (.vobj .blocks (Fields.ofList
      [("_blocks", .vlist (Vals.ofList lbs))]))

/-- Message.__init__ (source lines 817-844).  text, thread_ts arrive
as the str() coercions leave them; mrkdwn is bool or None by its
isinstance check; attachments is typed as a list (its isinstance
check is vacuous), its ELEMENTS are unconstrained, as in the source;
blocks is checked dynamically against the Blocks class. -/
def Message.init (text : Option String := none)
    (blocks : Option Val := none)
    (attachments : Option (List Val) := none)
    (thread_ts : Option String := none)
    (mrkdwn : Option Bool := none) : Except String Val :=
  if blocksBad blocks then
    .error "blocks must be of type Blocks"
  else if text.isNone && blocks.isNone && attachments.isNone then
    .error "One of these have to provided: text, blocks, attachments"
  else
    .ok (.vobj .message (Fields.ofList
      [("_text", optS text), ("_blocks", optV blocks),
       ("_attachments", optList attachments),
       ("_thread_ts", optS thread_ts), ("_mrkdwn", optB mrkdwn)]))
where
  blocksBad : Option Val → Bool
  | none => false
  | some b => !isBlocksObj b

def ResponseMessage.TYPES_DEF : List String := ["ephemeral", "in_channel"]

/-- ResponseMessage.__init__ (source lines 877-895): the Message
construction with thread_ts = None, then the three setter-validated
attributes appended in assignment order.  delete_original and
replace_original are bool or None by their isinstance checks. -/
def ResponseMessage.init (text : Option String := none)
    (blocks : Option Val := none)
    (attachments : Option (List Val) := none)
    (mrkdwn : Option Bool := none)
    (response_type : Option String := none)
    (delete_original : Option Bool := none)
    (replace_original : Option Bool := none) : Except String Val :=
  match Message.init text blocks attachments none mrkdwn with
  | .error e => .error e
  | .ok m =>
      if rtBad response_type then
        .error "valid values for response_type are ephemeral, in_channel"
      else
        match m with
        | .vobj _ f =>
            .ok (.vobj .responseMessage (appendFields f
              [("_response_type", optS response_type),
               ("_delete_original", optB delete_original),
               ("_replace_original", optB replace_original)]))
        | v => .ok v
where
  rtBad : Option String → Bool
  | none => false
  | some r => !(ResponseMessage.TYPES_DEF.contains r)
  appendFields : Fields → List (String × Val) → Fields
  | .nil, l => Fields.ofList l
  | .cons n v t, l => .cons n v (appendFields t l)

/-
Concrete fixtures used by the theorems below.  All of them are
constructions that complete (checked by evaluation in the theorems
that use them).
-/

def sampleOptionA : Val := getOk (Option.init (.vstr "A") "a")
def sampleOptionB : Val := getOk (Option.init (.vstr "B") "b")
def sampleGroup : Val := getOk (OptionGroup.init (.vstr "G") [sampleOptionB])
def sampleText : Val := getOk (Text.init "hi")
def sampleButton : Val := getOk (Button.init (.vstr "Go") "a1")
def sampleMessageHello : Val := getOk (Message.init (some "hello"))
def sampleResponseHello : Val := getOk (ResponseMessage.init (some "hello"))
def sampleResponseEphemeral : Val :=
  getOk (ResponseMessage.init (some "hello") none none none (some "ephemeral"))

/-
Reflexivity of the modelled Python equality (helper lemmas).
-/

mutual
theorem pyEq_refl : (v : Val) → pyEq v v = true
  | .vnone => rfl
  | .vstr s => by simp [pyEq]
  | .vbool b => by simp [pyEq]
  | .vobj c f => by simp [pyEq, isinstanceConc, fieldsZipEq_refl f]
  | .vlist xs => by simp [pyEq, valsEq_refl xs]

theorem fieldsZipEq_refl : (f : Fields) → fieldsZipEq f f = true
  | .nil => rfl
  | .cons n v t => by simp [fieldsZipEq, pyEq_refl v, fieldsZipEq_refl t]

theorem valsEq_refl : (l : Vals) → valsEq l l = true
  | .nil => rfl
  | .cons v t => by simp [valsEq, pyEq_refl v, valsEq_refl t]
end

/-- Claim C1.  The claim states that supplying both options and
option_groups to SelectMenuStatic raises a construction error and
never returns a live instance with both alternatives set.  The code
does the opposite: the guard at source lines 423-424 constructs the
ValueError but does not raise it, so the construction below completes
and the returned instance carries both alternatives.  This theorem
evaluates the constructor at such an input and records that outcome. -/
theorem selectMenuStatic_both_alternatives_no_error :
    isOk (SelectMenuStatic.init (.vstr "pick") "act"
      (some [sampleOptionA]) (some [sampleGroup])) = true
    ∧ ((getOk (SelectMenuStatic.init (.vstr "pick") "act"
        (some [sampleOptionA]) (some [sampleGroup]))).getField
        "_options").isNone = false
    ∧ ((getOk (SelectMenuStatic.init (.vstr "pick") "act"
        (some [sampleOptionA]) (some [sampleGroup]))).getField
        "_option_groups").isNone = false := by
  decide

/-- Claim C2.  The claim states that a non-absent initial_date of
length at most 255 is accepted exactly when it is a valid YYYY-MM-DD
calendar date.  The code parses with the format "%Y-%M-%d" (minute
directive in the month position, source line 576), so it accepts
strings that are not calendar dates: February 31st, a middle field of
45, and single-digit middle and day fields are all accepted below,
each of which the claim requires to be rejected. -/
theorem datePicker_accepts_invalid_calendar_dates :
    isOk (DatePicker.init "act" .vnone (some "2020-02-31")) = true
    ∧ specValidDate "2020-02-31" = false
    ∧ isOk (DatePicker.init "act" .vnone (some "2020-45-09")) = true
    ∧ specValidDate "2020-45-09" = false
    ∧ isOk (DatePicker.init "act" .vnone (some "2020-1-1")) = true
    ∧ specValidDate "2020-1-1" = false
    ∧ (getOk (DatePicker.init "act" .vnone
        (some "2020-02-31"))).getField "_initial_date"
        = .vstr "2020-02-31" := by
  decide

/-- Claim C3, counterexample.  Structural equality is not symmetric
and does not imply identical serialization: a Message equals a
ResponseMessage built from the same text (the subclass instance
passes the isinstance test and the zip stops at the five Message
attributes), but not conversely; and the Message also equals a
ResponseMessage carrying response_type, whose serialization has an
extra key. -/
theorem structuralEq_symmetry_counterexample :
    pyEq sampleMessageHello sampleResponseHello = true
    ∧ pyEq sampleResponseHello sampleMessageHello = false
    ∧ pyEq sampleMessageHello sampleResponseEphemeral = true
    ∧ jKeys (Val.get_array sampleMessageHello)
        ≠ jKeys (Val.get_array sampleResponseEphemeral) := by
  refine ⟨by decide, by decide, by decide, ?_⟩
  decide

/-- Claim C3, amended.  What does hold of the modelled equality: it is
reflexive; two Option instances built from identical text, value and
url are equal and serialize identically; and changing any one of the
three fields makes them unequal.  (Symmetry and the
equal-implies-identical-serialization part fail across the
Message/ResponseMessage subclass boundary, see the counterexample.) -/
theorem structuralEq_refl_and_option_fields :
    (∀ v : Val, pyEq v v = true)
    ∧ pyEq (getOk (Option.init (.vstr "A") "val1" (some "u1")))
        (getOk (Option.init (.vstr "A") "val1" (some "u1"))) = true
    ∧ Val.get_array (getOk (Option.init (.vstr "A") "val1" (some "u1")))
        = Val.get_array (getOk (Option.init (.vstr "A") "val1" (some "u1")))
    ∧ pyEq (getOk (Option.init (.vstr "A") "val1" (some "u1")))
        (getOk (Option.init (.vstr "B") "val1" (some "u1"))) = false
    ∧ pyEq (getOk (Option.init (.vstr "A") "val1" (some "u1")))
        (getOk (Option.init (.vstr "A") "val2" (some "u1"))) = false
    ∧ pyEq (getOk (Option.init (.vstr "A") "val1" (some "u1")))
        (getOk (Option.init (.vstr "A") "val1" (some "u2"))) = false :=
  ⟨pyEq_refl, by decide, rfl, by decide, by decide, by decide⟩

/-
Serialization properties (claim C4).  emittedKeys is the list-level
specification of which keys an object's serialization carries;
listsNoneFree rules out None sitting INSIDE a list value (the one
place the serializer passes None through verbatim; the constructors
never put None inside a stored list, with the deliberate exception of
Message.attachments whose elements are opaque); hasNull detects a
null anywhere in an emitted document.
-/

/-- The keys the serialization of an attribute dictionary must carry:
the attributes holding a non-None value, in order, with the leading
underscore stripped. -/
def emittedKeys (f : Fields) : List String :=
  (f.toL.filter (fun p => !p.2.isNone)).map (fun p => p.1.drop 1)

mutual
/-- No None occurs as an element of any list inside the value. -/
def listsNoneFree : Val → Bool
  | .vnone => true
  | .vstr _ => true
  | .vbool _ => true
  | .vobj _ f => fieldsLNF f
  | .vlist xs => valsLNF xs

def valsLNF : Vals → Bool
  | .nil => true
  | .cons v t => !v.isNone && listsNoneFree v && valsLNF t

def fieldsLNF : Fields → Bool
  | .nil => true
  | .cons _ v t => listsNoneFree v && fieldsLNF t
end

mutual
/-- Does a null occur anywhere in the emitted document? -/
def hasNull : JVal → Bool
  | .jnull => true
  | .jstr _ => false
  | .jbool _ => false
  | .jarr xs => hasNullL xs
  | .jobj fs => hasNullF fs

def hasNullL : JVals → Bool
  | .nil => false
  | .cons v t => hasNull v || hasNullL t

def hasNullF : JFields → Bool
  | .nil => false
  | .cons _ v t => hasNull v || hasNullF t
end

theorem getArrayFields_cons (m : String) (w : Val) (t : Fields) :
    getArrayFields (.cons m w t) =
      if w.isNone then getArrayFields t
      else .cons (m.drop 1) (serializeVal w) (getArrayFields t) := by
  cases w <;> rfl

theorem emittedKeys_cons (m : String) (w : Val) (t : Fields) :
    emittedKeys (.cons m w t) =
      if w.isNone then emittedKeys t
      else m.drop 1 :: emittedKeys t := by
  cases w <;> simp [emittedKeys, Fields.toL, Val.isNone]

theorem jfKeys_getArrayFields : (f : Fields) →
    jfKeys (getArrayFields f) = emittedKeys f
  | .nil => rfl
  | .cons m w t => by
      rw [getArrayFields_cons, emittedKeys_cons]
      cases hw : w.isNone <;> simp [jfKeys, jfKeys_getArrayFields t]

mutual
theorem serializeVal_noNull : (v : Val) → listsNoneFree v = true →
    v.isNone = false → hasNull (serializeVal v) = false
  | .vnone, _, h => by simp [Val.isNone] at h
  | .vstr _, _, _ => rfl
  | .vbool _, _, _ => rfl
  | .vlist xs, h, _ => by
      have hx : valsLNF xs = true := by simpa [listsNoneFree] using h
      simpa [serializeVal, hasNull] using serializeList_noNull xs hx
  | .vobj c f, h, _ => by
      have hf : fieldsLNF f = true := by simpa [listsNoneFree] using h
      by_cases hc : c = PyClass.blocks
      · subst hc
        simpa [serializeVal] using blocksGetArray_noNull f hf
      · simpa [serializeVal, hc, hasNull] using getArrayFields_noNull f hf

theorem blocksGetArray_noNull : (f : Fields) → fieldsLNF f = true →
    hasNull (blocksGetArray f) = false
  | .nil, _ => rfl
  | .cons _ .vnone _, _ => rfl
  | .cons _ (.vstr _) _, _ => rfl
  | .cons _ (.vbool _) _, _ => rfl
  | .cons _ (.vobj _ _) _, _ => rfl
  | .cons _ (.vlist xs) t, h => by
      have hx : valsLNF xs = true := by
        simp [fieldsLNF, listsNoneFree, Bool.and_eq_true] at h
        exact h.1
      simpa [blocksGetArray, hasNull] using serializeList_noNull xs hx

theorem serializeList_noNull : (xs : Vals) → valsLNF xs = true →
    hasNullL (serializeList xs) = false
  | .nil, _ => rfl
  | .cons v t, h => by
      simp only [valsLNF, Bool.and_eq_true, Bool.not_eq_true'] at h
      have h1 := serializeVal_noNull v h.1.2 h.1.1
      have h2 := serializeList_noNull t h.2
      simp [serializeList, hasNullL, h1, h2]

theorem getArrayFields_noNull : (f : Fields) → fieldsLNF f = true →
    hasNullF (getArrayFields f) = false
  | .nil, _ => rfl
  | .cons m w t, h => by
      simp only [fieldsLNF, Bool.and_eq_true] at h
      have ht := getArrayFields_noNull t h.2
      cases hw : w.isNone
      · have h1 := serializeVal_noNull w h.1 hw
        rw [getArrayFields_cons]
        simp [hw, hasNullF, h1, ht]
      · have hwn : w = .vnone := by cases w <;> simp [Val.isNone] at hw ⊢
        rw [getArrayFields_cons]
        simp [hw, ht]
end

theorem mem_emittedKeys (f : Fields) (n : String) (v : Val)
    (hm : (n, v) ∈ f.toL) (hv : v.isNone = false) :
    n.drop 1 ∈ emittedKeys f := by
  unfold emittedKeys
  exact List.mem_map_of_mem _ (List.mem_filter.mpr ⟨hm, by simp [hv]⟩)

theorem getArrayFields_lookup : (f : Fields) → ∀ (n : String) (v : Val),
    (emittedKeys f).Nodup → (n, v) ∈ f.toL → v.isNone = false →
    jfLookup (getArrayFields f) (n.drop 1) = some (serializeVal v)
  | .nil => by
      intro n v _ hm _
      simp [Fields.toL] at hm
  | .cons m w t => by
      intro n v hnd hm hv
      simp only [Fields.toL] at hm
      rcases List.mem_cons.mp hm with heq | htail
      · injection heq with h1 h2
        subst h1; subst h2
        rw [getArrayFields_cons]
        simp [hv, jfLookup]
      · rw [getArrayFields_cons]
        cases hw : w.isNone with
        | true =>
            rw [emittedKeys_cons] at hnd
            simp only [hw, if_true] at hnd ⊢
            exact getArrayFields_lookup t n v hnd htail hv
        | false =>
            rw [emittedKeys_cons] at hnd
            simp only [hw, if_false] at hnd ⊢
            have hnotin := (List.nodup_cons.mp hnd).1
            have hndt := (List.nodup_cons.mp hnd).2
            have hmem : n.drop 1 ∈ emittedKeys t :=
              mem_emittedKeys t n v htail hv
            have hne : (m.drop 1 == n.drop 1) = false := by
              refine beq_false_of_ne ?_
              intro hcontra
              exact hnotin (hcontra ▸ hmem)
            simp only [jfLookup, hne, Bool.false_eq_true, if_false]
            exact getArrayFields_lookup t n v hndt htail hv

/-- Claim C4.  For every node (other than the Blocks container, whose
overridden serialization emits a list, not a mapping): the emitted
mapping carries exactly the keys of the attributes holding a non-None
value, in order, with the underscore stripped (absent fields are
omitted, no key for them is emitted); no null appears anywhere in the
emitted document provided no None sits inside a stored list (true of
every constructed tree whose attachments elements are None-free); and
every present field is emitted under its stripped name with its value
serialized by the recursive rules (objects recursively, lists
elementwise, scalars verbatim). -/
theorem get_array_omits_absent_fields :
    (∀ (c : PyClass) (f : Fields), c ≠ .blocks →
        jKeys (Val.get_array (.vobj c f)) = emittedKeys f)
    ∧ (∀ (c : PyClass) (f : Fields), fieldsLNF f = true →
        hasNull (Val.get_array (.vobj c f)) = false)
    ∧ (∀ (c : PyClass) (f : Fields) (n : String) (v : Val), c ≠ .blocks →
        (emittedKeys f).Nodup → (n, v) ∈ f.toL → v.isNone = false →
        jLookup (Val.get_array (.vobj c f)) (n.drop 1)
          = some (serializeVal v)) := by
  refine ⟨?_, ?_, ?_⟩
  · intro c f hc
    simp [Val.get_array, serializeVal, hc, jKeys, jfKeys_getArrayFields f]
  · intro c f hf
    exact serializeVal_noNull (.vobj c f) (by simpa [listsNoneFree] using hf) rfl
  · intro c f n v hc hnd hm hv
    simp only [Val.get_array, serializeVal, hc]
    simp [hc, jLookup, getArrayFields_lookup f n v hnd hm hv]

def witnessFields : Fields :=
  .cons "_text" (.vstr "hello") (.cons "_blocks" .vnone .nil)

/-- Witness for claim C4: the three parts applied to a concrete
Message-shaped attribute dictionary with one present and one absent
field. -/
theorem get_array_omits_absent_fields_witness :
    jKeys (Val.get_array (.vobj .message witnessFields))
      = emittedKeys witnessFields
    ∧ hasNull (Val.get_array (.vobj .message witnessFields)) = false
    ∧ jLookup (Val.get_array (.vobj .message witnessFields))
        ("_text".drop 1) = some (serializeVal (.vstr "hello")) :=
  ⟨get_array_omits_absent_fields.1 .message witnessFields (by decide),
   get_array_omits_absent_fields.2.1 .message witnessFields (by decide),
   get_array_omits_absent_fields.2.2 .message witnessFields "_text"
     (.vstr "hello") (by decide) (by decide) (by decide) (by decide)⟩

/-- Claim C5.  With validly typed arguments (blocks, when supplied,
is a Blocks instance), Message construction raises exactly when text,
blocks and attachments are all absent; and Message(text="hello")
serializes to a document whose only field is text = "hello". -/
theorem message_requires_content :
    (∀ (text : Option String) (blocks : Option Val)
        (attachments : Option (List Val)) (thread_ts : Option String)
        (mrkdwn : Option Bool),
      (∀ b, blocks = some b → isBlocksObj b = true) →
      (isOk (Message.init text blocks attachments thread_ts mrkdwn) = false
        ↔ text = none ∧ blocks = none ∧ attachments = none))
    ∧ Val.get_array (getOk (Message.init (some "hello")))
        = .jobj (.cons "text" (.jstr "hello") .nil) := by
  refine ⟨?_, by decide⟩
  intro text blocks attachments thread_ts mrkdwn hb
  cases blocks with
  | none =>
      cases text <;> cases attachments <;>
        simp [Message.init, Message.init.blocksBad, isOk]
  | some b =>
      have hbb : isBlocksObj b = true := hb b rfl
      cases text <;> cases attachments <;>
        simp [Message.init, Message.init.blocksBad, hbb, isOk]

/-- Witness for claim C5: the characterization applied to the
no-argument construction, which the claim says must fail. -/
theorem message_requires_content_witness :
    isOk (Message.init none none none none none) = false
      ↔ (none : Option String) = none ∧ (none : Option Val) = none
          ∧ (none : Option (List Val)) = none :=
  message_requires_content.1 none none none none none
    (fun _ h => nomatch h)

/-
ActionsBlock cap (claim C6).
-/

/-- The instance an ActionsBlock construction leaves behind. -/
def actionsObj (block_id : Option String) (xs : Vals) : Val :=
  .vobj .actionsBlock (.cons "_type" (.vstr "actions")
    (.cons "_block_id" (optS block_id) (.cons "_elements" (.vlist xs) .nil)))

/-- The element list after a sequence of appends. -/
def Vals.appendList : Vals → List Val → Vals
  | xs, [] => xs
  | xs, e :: es => Vals.appendList (xs.push e) es

theorem Vals.push_length : ∀ (xs : Vals) (e : Val),
    (xs.push e).length = xs.length + 1
  | .nil, _ => rfl
  | .cons v t, e => by
      simp [Vals.push, Vals.length, Vals.push_length t e]
      omega

theorem Vals.appendList_length : ∀ (es : List Val) (xs : Vals),
    (Vals.appendList xs es).length = xs.length + es.length
  | [], xs => rfl
  | e :: es, xs => by
      simp [Vals.appendList, Vals.appendList_length es (xs.push e),
        Vals.push_length]
      omega

theorem actions_init_ok (es : List Val) (h1 : es.length ≤ 5)
    (h2 : ∀ e ∈ es, isInteractiveElementObj e = true) :
    ActionsBlock.init es none = .ok (actionsObj none (Vals.ofList es)) := by
  have hgt : ¬ (es.length > 5) := by omega
  have hany : (es.any fun x => !isInteractiveElementObj x) = false := by
    rw [List.any_eq_false]
    intro x hx
    simp [h2 x hx]
  simp [ActionsBlock.init, layoutBase, layoutBase.blockIdTooLong, hgt,
    hany, actionsObj, Fields.ofList, optS]

theorem actions_add_ok (bid : Option String) (xs : Vals) (e : Val)
    (he : isBlockElementObj e = true) (hlen : Vals.length xs ≠ 5) :
    ActionsBlock.add (actionsObj bid xs) e
      = .ok (actionsObj bid (xs.push e)) := by
  have h5 : (Vals.length xs == 5) = false := beq_false_of_ne hlen
  simp [ActionsBlock.add, he, actionsObj, Fields.get, Fields.set, h5]

theorem actions_add_full (bid : Option String) (xs : Vals) (e : Val)
    (he : isBlockElementObj e = true) (hlen : Vals.length xs = 5) :
    ActionsBlock.add (actionsObj bid xs) e
      = .error "Can not have more than 5 elements" := by
  have h5 : (Vals.length xs == 5) = true := by simp [hlen]
  simp [ActionsBlock.add, he, actionsObj, Fields.get, h5]

theorem actions_addAll_ok : ∀ (es : List Val) (bid : Option String)
    (xs : Vals), (∀ e ∈ es, isBlockElementObj e = true) →
    Vals.length xs + es.length ≤ 5 →
    ActionsBlock.addAll (actionsObj bid xs) es
      = .ok (actionsObj bid (Vals.appendList xs es))
  | [], _, _, _, _ => rfl
  | e :: es, bid, xs, h, hlen => by
      have he : isBlockElementObj e = true := h e (by simp)
      have hne : Vals.length xs ≠ 5 := by
        simp [List.length] at hlen
        omega
      rw [ActionsBlock.addAll, actions_add_ok bid xs e he hne]
      exact actions_addAll_ok es bid (xs.push e)
        (fun x hx => h x (by simp [hx]))
        (by
          rw [Vals.push_length]
          simp only [List.length_cons] at hlen
          omega)

theorem actions_addAll_append (es1 es2 : List Val) : ∀ b : Val,
    ActionsBlock.addAll b (es1 ++ es2)
      = match ActionsBlock.addAll b es1 with
        | .error m => .error m
        | .ok s => ActionsBlock.addAll s es2 := by
  induction es1 with
  | nil => intro b; rfl
  | cons e es ih =>
      intro b
      show ActionsBlock.addAll b (e :: (es ++ es2)) = _
      rw [ActionsBlock.addAll, ActionsBlock.addAll]
      cases ActionsBlock.add b e with
      | error m => rfl
      | ok s => exact ih s

/-- Interactive elements are block elements (Button, the select menus
and DatePicker all extend _BlockElement through _InteractiveElement). -/
theorem interactive_isBlockElement (e : Val)
    (h : isInteractiveElementObj e = true) : isBlockElementObj e = true := by
  simp [isBlockElementObj, h]

/-- Claim C6.  The cap of 5 is enforced at construction (at most 5
interactive elements succeed, 6 fail) and on add (starting from an
empty ActionsBlock, any sequence of at most 5 interactive adds
succeeds and yields exactly those elements - no truncation - while a
6th add fails). -/
theorem actionsBlock_cap_enforced :
    (∀ es : List Val, es.length ≤ 5 →
        (∀ e ∈ es, isInteractiveElementObj e = true) →
        isOk (ActionsBlock.init es none) = true)
    ∧ (∀ es : List Val, es.length = 6 →
        isOk (ActionsBlock.init es none) = false)
    ∧ (∀ es : List Val, es.length ≤ 5 →
        (∀ e ∈ es, isInteractiveElementObj e = true) →
        ActionsBlock.addAll (getOk (ActionsBlock.init [] none)) es
          = .ok (actionsObj none (Vals.appendList .nil es)))
    ∧ (∀ (es : List Val) (e : Val), es.length = 5 →
        (∀ x ∈ es, isInteractiveElementObj x = true) →
        isInteractiveElementObj e = true →
        isOk (ActionsBlock.addAll (getOk (ActionsBlock.init [] none))
          (es ++ [e])) = false) := by
  have hempty : getOk (ActionsBlock.init [] none) = actionsObj none .nil := rfl
  refine ⟨?_, ?_, ?_, ?_⟩
  · intro es h1 h2
    rw [actions_init_ok es h1 h2]
    rfl
  · intro es h
    have hgt : es.length > 5 := by omega
    simp [ActionsBlock.init, layoutBase, layoutBase.blockIdTooLong, hgt, isOk]
  · intro es h1 h2
    rw [hempty]
    exact actions_addAll_ok es none .nil
      (fun e he => interactive_isBlockElement e (h2 e he))
      (by simp [Vals.length]; omega)
  · intro es e h1 h2 he
    rw [hempty, actions_addAll_append]
    rw [actions_addAll_ok es none .nil
      (fun x hx => interactive_isBlockElement x (h2 x hx))
      (by simp [Vals.length]; omega)]
    have hfull : Vals.length (Vals.appendList .nil es) = 5 := by
      rw [Vals.appendList_length]
      simp [Vals.length, h1]
    simp only [ActionsBlock.addAll]
    rw [actions_add_full none _ e (interactive_isBlockElement e he) hfull]
    rfl

/-- Witness for claim C6: all four parts applied to concrete lists of
five and six buttons. -/
theorem actionsBlock_cap_witness :
    isOk (ActionsBlock.init [sampleButton, sampleButton, sampleButton,
      sampleButton, sampleButton] none) = true
    ∧ isOk (ActionsBlock.init [sampleButton, sampleButton, sampleButton,
        sampleButton, sampleButton, sampleButton] none) = false
    ∧ ActionsBlock.addAll (getOk (ActionsBlock.init [] none))
        [sampleButton, sampleButton, sampleButton, sampleButton,
         sampleButton]
        = .ok (actionsObj none (Vals.appendList .nil
            [sampleButton, sampleButton, sampleButton, sampleButton,
             sampleButton]))
    ∧ isOk (ActionsBlock.addAll (getOk (ActionsBlock.init [] none))
        ([sampleButton, sampleButton, sampleButton, sampleButton,
          sampleButton] ++ [sampleButton])) = false :=
  ⟨actionsBlock_cap_enforced.1 _ (by decide) (by decide),
   actionsBlock_cap_enforced.2.1 _ (by decide),
   actionsBlock_cap_enforced.2.2.1 _ (by decide) (by decide),
   actionsBlock_cap_enforced.2.2.2 _ sampleButton (by decide) (by decide)
     (by decide)⟩

/-- Claim C7.  Button restricts style to the closed enum where None,
"primary" and "danger" are the legal values: the danger construction
succeeds and serializes with style "danger", and any other style
string is rejected at construction. -/
theorem button_style_enum_enforced :
    isOk (Button.init (.vstr "Go") "action1" none none (some "danger"))
      = true
    ∧ jLookup (Val.get_array (getOk (Button.init (.vstr "Go") "action1"
        none none (some "danger")))) "style" = some (.jstr "danger")
    ∧ (∀ s : String, s ≠ "primary" → s ≠ "danger" →
        isOk (Button.init (.vstr "Go") "action1" none none (some s))
          = false) := by
  refine ⟨by decide, by decide, ?_⟩
  intro s h1 h2
  have c1 : (s == "danger") = false := beq_false_of_ne h2
  have c2 : (s == "primary") = false := beq_false_of_ne h1
  simp [Button.init, interactiveBase, interactiveBase.confirmBad,
    Text.convert_n_validate, Text.init, Text.TYPES, Text.TYPE_PLAIN_TEXT,
    Text.TYPE_MRKDWN, textType, textText, Button.init.optLenGt,
    Button.init.styleBad, Button.STYLES_DEF, List.contains, List.elem,
    c1, c2, isOk]
  decide

/-- Witness for claim C7: the rejection part applied to the style
string from the specification's end-to-end scenario C. -/
theorem button_style_enum_witness :
    isOk (Button.init (.vstr "Go") "action1" none none (some "bogus"))
      = false :=
  button_style_enum_enforced.2.2 "bogus" (by decide) (by decide)

/-- List form of an Except carrying an attribute prefix. -/
def getOkL : Except String (List (String × Val)) → List (String × Val)
  | .ok l => l
  | .error _ => []

/-- The attribute prefix of a static select menu built with
placeholder "p", action_id "act" and no confirm dialog (used by the
witnesses below). -/
def smBase : List (String × Val) :=
  getOkL (selectMenuBase "static_select" "act" (.vstr "p") none)

/-- Claim C8.  When initial_option is supplied and exactly one of
options / option_groups is populated (each individually valid),
construction succeeds exactly when some reachable Option compares
structurally equal to initial_option - a member of options, or a
member of some group's options. -/
theorem selectMenuStatic_initial_option_membership :
    (∀ (ph : Val) (aid : String) (base : List (String × Val))
        (os : List Val) (io : Val),
      selectMenuBase "static_select" aid ph none = .ok base →
      os.length ≤ 100 →
      (∀ x ∈ os, isOptionObj x = true) →
      (∀ x ∈ os, (x.getField "_url").isNone = true) →
      isOptionObj io = true →
      (isOk (SelectMenuStatic.init ph aid (some os) none (some io)) = true
        ↔ os.any (fun x => pyEq x io) = true))
    ∧ (∀ (ph : Val) (aid : String) (base : List (String × Val))
        (gs : List Val) (io : Val),
      selectMenuBase "static_select" aid ph none = .ok base →
      gs.length ≤ 100 →
      (∀ x ∈ gs, isOptionGroupObj x = true) →
      isOptionObj io = true →
      (isOk (SelectMenuStatic.init ph aid none (some gs) (some io)) = true
        ↔ (allGroupOptions gs).any (fun x => pyEq x io) = true)) := by
  constructor
  · intro ph aid base os io hbase hlen hopt hurl hio
    have hgt : ¬ (os.length > 100) := by omega
    have ha1 : (os.any fun x => !isOptionObj x) = false := by
      rw [List.any_eq_false]; intro x hx; simp [hopt x hx]
    have ha2 : (os.any fun x => !(x.getField "_url").isNone) = false := by
      rw [List.any_eq_false]; intro x hx; simp [hurl x hx]
    cases hany : os.any (fun x => pyEq x io) <;>
      simp [SelectMenuStatic.init, hbase,
        SelectMenuStatic.init.optionsCheck,
        SelectMenuStatic.init.groupsCheck,
        SelectMenuStatic.init.initialCheck,
        hgt, ha1, ha2, hio, hany, isOk]
  · intro ph aid base gs io hbase hlen hgrp hio
    have hgt : ¬ (gs.length > 100) := by omega
    have ha1 : (gs.any fun x => !isOptionGroupObj x) = false := by
      rw [List.any_eq_false]; intro x hx; simp [hgrp x hx]
    cases hany : (allGroupOptions gs).any (fun x => pyEq x io) <;>
      simp [SelectMenuStatic.init, hbase,
        SelectMenuStatic.init.optionsCheck,
        SelectMenuStatic.init.groupsCheck,
        SelectMenuStatic.init.initialCheck,
        hgt, ha1, hio, hany, isOk]

/-- Witness for claim C8: the options direction at a member that is
present, and the option_groups direction at a member of the group. -/
theorem selectMenuStatic_initial_option_witness :
    (isOk (SelectMenuStatic.init (.vstr "p") "act" (some [sampleOptionA])
        none (some sampleOptionA)) = true
      ↔ [sampleOptionA].any (fun x => pyEq x sampleOptionA) = true)
    ∧ (isOk (SelectMenuStatic.init (.vstr "p") "act" none
        (some [sampleGroup]) (some sampleOptionB)) = true
      ↔ (allGroupOptions [sampleGroup]).any
          (fun x => pyEq x sampleOptionB) = true) :=
  ⟨selectMenuStatic_initial_option_membership.1 (.vstr "p") "act" smBase
     [sampleOptionA] sampleOptionA rfl (by decide) (by decide) (by decide)
     (by decide),
   selectMenuStatic_initial_option_membership.2 (.vstr "p") "act" smBase
     [sampleGroup] sampleOptionB rfl (by decide) (by decide) (by decide)⟩

/-- A Text instance is not a _BlockElement: Text extends _Slack_Object
directly, so the isinstance(element, _BlockElement) test in the add
methods rejects it. -/
theorem text_not_blockElement : ∀ t : Val, isTextObj t = true →
    isBlockElementObj t = false := by
  intro t h
  cases t with
  | vobj c f =>
      cases c <;> simp [isTextObj] at h
      simp [isBlockElementObj, isImageElementObj, isInteractiveElementObj]
  | vnone => simp [isTextObj] at h
  | vstr s => simp [isTextObj] at h
  | vbool b => simp [isTextObj] at h
  | vlist l => simp [isTextObj] at h

/-- Claim C9.  ContextBlock accepts Text entries in the elements list
at construction, but add rejects every Text value with a type error
(its isinstance check admits only _BlockElement instances, and Text is
not one), for any receiver whatsoever - so Text can enter a
ContextBlock only at construction time. -/
theorem contextBlock_add_rejects_text :
    (∀ t : Val, isTextObj t = true →
        isOk (ContextBlock.init [t] none) = true)
    ∧ (∀ cb t : Val, isTextObj t = true →
        ContextBlock.add cb t = .error "element must be a _BlockElement") := by
  constructor
  · intro t h
    simp [ContextBlock.init, layoutBase, layoutBase.blockIdTooLong, h, isOk]
  · intro cb t h
    simp [ContextBlock.add, text_not_blockElement t h]

/-- Witness for claim C9: a concrete Text enters at construction and
is then rejected by add on the very block it sits in. -/
theorem contextBlock_add_rejects_text_witness :
    isOk (ContextBlock.init [sampleText] none) = true
    ∧ ContextBlock.add (getOk (ContextBlock.init [sampleText] none))
        sampleText = .error "element must be a _BlockElement" :=
  ⟨contextBlock_add_rejects_text.1 sampleText (by decide),
   contextBlock_add_rejects_text.2
     (getOk (ContextBlock.init [sampleText] none)) sampleText (by decide)⟩

/-- Claim C10.  With neither options nor option_groups supplied, any
Option passed as initial_option is accepted with no membership check,
and the resulting instance stores it. -/
theorem selectMenuStatic_no_crosscheck :
    ∀ (ph : Val) (aid : String) (base : List (String × Val)) (io : Val),
      selectMenuBase "static_select" aid ph none = .ok base →
      isOptionObj io = true →
      SelectMenuStatic.init ph aid none none (some io) none
        = .ok (.vobj .selectMenuStatic (Fields.ofList (base ++
            [("_options", Val.vnone), ("_option_groups", Val.vnone),
             ("_initial_option", io)]))) := by
  intro ph aid base io hbase hio
  simp [SelectMenuStatic.init, hbase,
    SelectMenuStatic.init.optionsCheck,
    SelectMenuStatic.init.groupsCheck,
    SelectMenuStatic.init.initialCheck, hio, optList, optV]

/-- Witness for claim C10: a concrete menu with no choices stores the
supplied initial_option unchecked. -/
theorem selectMenuStatic_no_crosscheck_witness :
    SelectMenuStatic.init (.vstr "p") "act" none none (some sampleOptionA)
        none
      = .ok (.vobj .selectMenuStatic (Fields.ofList (smBase ++
          [("_options", Val.vnone), ("_option_groups", Val.vnone),
           ("_initial_option", sampleOptionA)]))) :=
  selectMenuStatic_no_crosscheck (.vstr "p") "act" smBase sampleOptionA
    rfl (by decide)

end SlackObjects
